import Mathlib

/-!
Verification of the Lecture Catalog Client
(`src/video-processing-platform/frontend/app/student/lectures.ts`).

The module under verification is a small client-side data-access layer:
two functions, `fetchLectures` and `fetchLecture`, each issuing a single
HTTP GET via the platform `fetch` mechanism and translating the response
into a typed result or a thrown error.

Shallow embedding choices:
- JSON values are modelled by the inductive `Json` (numbers as `Int`,
  which is irrelevant to the claims, all of which concern string fields
  or whole-value pass-through).
- The `fetch` mechanism is an oracle `net : Request → FetchOutcome`
  supplied as a parameter: a `FetchOutcome` is either a transport-level
  rejection (the promise returned by `fetch` rejects) or a response
  carrying an HTTP status and the result of decoding its body as JSON
  (the value `response.json()` resolves to, or the decoder's error).
- Thrown errors are modelled by `JsError`: `jsError m` is a
  `throw new Error(m)` performed by this module, while `transport` and
  `decode` are the unmodified lower-level failures that propagate
  through the `async` functions untouched.
- `process.env.NEXT_PUBLIC_API_URL` is modelled as an `Option String`
  parameter (`none` = variable unset), resolved by `apiBaseUrl` exactly
  as the source's `process.env.NEXT_PUBLIC_API_URL ?? "http://localhost:8000"`.
- Each embedded operation returns the single `Request` it issued paired
  with its outcome, so that request-shape properties (URL, cache
  directive) are stated about the same run that produced the outcome.
-/

namespace Academix

/-- A JSON value, as produced by `response.json()`. -/
inductive Json where
  | null : Json
  | bool : Bool → Json
  | num : Int → Json
  | str : String → Json
  | arr : List Json → Json
  | obj : List (String × Json) → Json
  deriving Repr

/-- One entry of the `keyConcepts` array of the `Lecture` record type. -/
structure KeyConcept where
  title : String
  timestamp : String
  deriving Repr, DecidableEq

/-- The `Lecture` record type exported by the source module. -/
structure Lecture where
  slug : String
  title : String
  description : String
  duration : String
  image : String
  publishedDate : String
  views : String
  aiSummary : String
  keyConcepts : List KeyConcept
  deriving Repr, DecidableEq

/-- JSON serialization of a key concept: the shape the remote service
sends for one element of `keyConcepts`. -/
def KeyConcept.toJson (k : KeyConcept) : Json :=
  .obj [("title", .str k.title), ("timestamp", .str k.timestamp)]

/-- JSON serialization of a lecture: the shape of a well-formed Lecture
object as sent by the remote service (every field present, string-typed,
`keyConcepts` an array of concept objects). -/
def Lecture.toJson (l : Lecture) : Json :=
  .obj [ ("slug", .str l.slug)
       , ("title", .str l.title)
       , ("description", .str l.description)
       , ("duration", .str l.duration)
       , ("image", .str l.image)
       , ("publishedDate", .str l.publishedDate)
       , ("views", .str l.views)
       , ("aiSummary", .str l.aiSummary)
       , ("keyConcepts", .arr (l.keyConcepts.map KeyConcept.toJson)) ]

/-- Field lookup in a JSON object (first binding wins, as in a JS object
literal with distinct keys). -/
def Json.getField : Json → String → Option Json
  | .obj fs, name => fs.lookup name
  | _, _ => none

/-- Extract a JSON string. -/
def Json.asStr : Json → Option String
  | .str s => some s
  | _ => none

/-- Extract a string-valued field of a JSON object. -/
def Json.getStr (j : Json) (name : String) : Option String :=
  (j.getField name).bind Json.asStr

/-- Read a `KeyConcept` back out of its JSON form; used only to state
that serialization is lossless (fields copied verbatim). -/
def KeyConcept.ofJson (j : Json) : Option KeyConcept :=
  match j.getStr "title", j.getStr "timestamp" with
  | some t, some ts => some ⟨t, ts⟩
  | _, _ => none

/-- Decode a list of JSON values as key concepts, failing if any
element fails. -/
def decodeKeyConceptList : List Json → Option (List KeyConcept)
  | [] => some []
  | j :: js =>
    match KeyConcept.ofJson j, decodeKeyConceptList js with
    | some k, some ks => some (k :: ks)
    | _, _ => none

/-- Decode the `keyConcepts` field: a JSON array whose elements all
decode as key concepts. -/
def decodeKeyConcepts : Json → Option (List KeyConcept)
  | .arr xs => decodeKeyConceptList xs
  | _ => none

/-- Read a `Lecture` back out of its JSON form; used only to state that
serialization is lossless (fields copied verbatim). -/
def Lecture.ofJson (j : Json) : Option Lecture :=
  match j.getStr "slug", j.getStr "title", j.getStr "description", j.getStr "duration",
        j.getStr "image", j.getStr "publishedDate", j.getStr "views", j.getStr "aiSummary",
        (j.getField "keyConcepts").bind decodeKeyConcepts with
  | some slug, some title, some description, some duration, some image, some publishedDate,
    some views, some aiSummary, some kcs =>
      some ⟨slug, title, description, duration, image, publishedDate, views, aiSummary, kcs⟩
  | _, _, _, _, _, _, _, _, _ => none

/-- The cache mode of a `fetch` request (`RequestCache`); the source
passes `cache: "no-store"` on both calls. -/
inductive CacheMode where
  | defaultMode | noStore | reload | noCache | forceCache | onlyIfCached
  deriving Repr, DecidableEq

/-- The observable part of an outbound `fetch` request: the URL and the
cache directive. The source sends no body, no custom headers and no
authentication, so nothing else varies. -/
structure Request where
  url : String
  cache : CacheMode
  deriving Repr, DecidableEq

/-- What the `fetch` mechanism does with a request: either the promise
rejects with a transport-level error, or a response arrives with an HTTP
`status` and a body whose JSON decoding yields `jsonBody` (`Except.error`
when `response.json()` would reject, e.g. an empty or malformed body). -/
inductive FetchOutcome where
  | response (status : Nat) (jsonBody : Except String Json)
  | transportError (err : String)

/-- An error escaping one of the two operations: `jsError m` is a
`throw new Error(m)` performed by the module itself; `transport` and
`decode` are lower-level failures propagating unmodified. -/
inductive JsError where
  | jsError (message : String)
  | transport (err : String)
  | decode (err : String)
  deriving Repr, DecidableEq

/-- `response.ok` of the Fetch standard: true exactly when the status is
in the 2xx range. -/
def statusOk (status : Nat) : Bool := 200 ≤ status && status < 300

/-- `const apiBaseUrl = process.env.NEXT_PUBLIC_API_URL ?? "http://localhost:8000"`:
the base address, resolved once at module initialization from the
environment override, with the fixed fallback. -/
def apiBaseUrl (envApiUrl : Option String) : String :=
  envApiUrl.getD "http://localhost:8000"

/-- `fetchLectures` (lines 18-29 of the source): GET
`{apiBaseUrl}/api/lectures` with `cache: "no-store"`; on a non-ok status
throw `Error("Unable to load lectures")`; otherwise return the decoded
body unchanged (the `as Lecture[]` cast performs no runtime check).
Returns the issued request paired with the outcome. -/
def fetchLectures (envApiUrl : Option String) (net : Request → FetchOutcome) :
    Request × Except JsError Json :=
  let req : Request := { url := apiBaseUrl envApiUrl ++ "/api/lectures", cache := .noStore }
  (req,
    match net req with
    | .transportError e => .error (.transport e)
    | .response status jsonBody =>
      if !statusOk status then
        .error (.jsError "Unable to load lectures")
      else
        match jsonBody with
        | .error e => .error (.decode e)
        | .ok payload => .ok payload)

/-- `fetchLecture` (lines 31-42 of the source): GET
`{apiBaseUrl}/api/lectures/{slug}` (template-literal interpolation, no
escaping) with `cache: "no-store"`; on a non-ok status throw
`Error("Lecture not found")`; otherwise return the decoded body
unchanged (the `as Lecture` cast performs no runtime check). -/
def fetchLecture (envApiUrl : Option String) (slug : String)
    (net : Request → FetchOutcome) : Request × Except JsError Json :=
  let req : Request :=
    { url := apiBaseUrl envApiUrl ++ "/api/lectures/" ++ slug, cache := .noStore }
  (req,
    match net req with
    | .transportError e => .error (.transport e)
    | .response status jsonBody =>
      if !statusOk status then
        .error (.jsError "Lecture not found")
      else
        match jsonBody with
        | .error e => .error (.decode e)
        | .ok payload => .ok payload)

/-- The response handling shared by `fetchLecture` runs after the request
is issued and depends only on the network outcome, never on the slug:
this factorization witnesses that no local validation of the slug
occurs. -/
def handleLectureOutcome : FetchOutcome → Except JsError Json
  | .transportError e => .error (.transport e)
  | .response status jsonBody =>
    if !statusOk status then
      .error (.jsError "Lecture not found")
    else
      match jsonBody with
      | .error e => .error (.decode e)
      | .ok payload => .ok payload

/-- The sample lecture of the spec's concrete scenario (§8). -/
def sampleLecture : Lecture :=
  { slug := "a", title := "A", description := "d", duration := "10:00"
  , image := "/a.png", publishedDate := "2024-01-01", views := "100"
  , aiSummary := "s", keyConcepts := [] }

example : statusOk 200 = true := by decide
example : statusOk 404 = false := by decide
example : apiBaseUrl none = "http://localhost:8000" := rfl
example : KeyConcept.ofJson (KeyConcept.toJson ⟨"t", "ts"⟩) = some ⟨"t", "ts"⟩ := by decide
example : Lecture.ofJson (Lecture.toJson sampleLecture) = some sampleLecture := by decide

/-! ## Helper lemmas: the JSON form of a well-formed Lecture is lossless -/

theorem keyConcept_decode_encode (k : KeyConcept) :
    KeyConcept.ofJson k.toJson = some k := rfl

theorem decodeKeyConcepts_map (ks : List KeyConcept) :
    decodeKeyConcepts (.arr (ks.map KeyConcept.toJson)) = some ks := by
  induction ks with
  | nil => rfl
  | cons k ks ih =>
    simp only [decodeKeyConcepts, List.map_cons, decodeKeyConceptList,
      keyConcept_decode_encode] at *
    simp [ih]

theorem lecture_decode_encode (l : Lecture) :
    Lecture.ofJson l.toJson = some l := by
  have h1 : (Lecture.toJson l).getStr "slug" = some l.slug := rfl
  have h2 : (Lecture.toJson l).getStr "title" = some l.title := rfl
  have h3 : (Lecture.toJson l).getStr "description" = some l.description := rfl
  have h4 : (Lecture.toJson l).getStr "duration" = some l.duration := rfl
  have h5 : (Lecture.toJson l).getStr "image" = some l.image := rfl
  have h6 : (Lecture.toJson l).getStr "publishedDate" = some l.publishedDate := rfl
  have h7 : (Lecture.toJson l).getStr "views" = some l.views := rfl
  have h8 : (Lecture.toJson l).getStr "aiSummary" = some l.aiSummary := rfl
  have hkc : (Lecture.toJson l).getField "keyConcepts"
      = some (.arr (l.keyConcepts.map KeyConcept.toJson)) := rfl
  simp [Lecture.ofJson, h1, h2, h3, h4, h5, h6, h7, h8, hkc, decodeKeyConcepts_map]

/-! ## Claim theorems -/

/-- C1: for every simulated successful (2xx) response whose body is a
JSON array of N well-formed Lecture objects (N ≥ 0), `fetchLectures`
resolves with exactly that array — same length N, same order, every
field of every object copied verbatim (decoding each returned element
recovers precisely the lectures that were sent, in order). -/
theorem fetchLectures_wellformed_array_passthrough (envApiUrl : Option String)
    (net : Request → FetchOutcome) (status : Nat) (ls : List Lecture)
    (hok : statusOk status = true)
    (hnet : ∀ r, net r = .response status (.ok (.arr (ls.map Lecture.toJson)))) :
    (fetchLectures envApiUrl net).2 = .ok (.arr (ls.map Lecture.toJson)) ∧
    (ls.map Lecture.toJson).length = ls.length ∧
    (ls.map Lecture.toJson).map Lecture.ofJson = ls.map some := by
  refine ⟨?_, by simp, ?_⟩
  · simp [fetchLectures, hnet, hok]
  · simp [List.map_map, Function.comp_def, lecture_decode_encode]

theorem fetchLectures_wellformed_array_passthrough_witness :
    (fetchLectures none
        (fun _ => .response 200 (.ok (.arr ([sampleLecture].map Lecture.toJson))))).2
      = .ok (.arr ([sampleLecture].map Lecture.toJson)) ∧
    ([sampleLecture].map Lecture.toJson).length = [sampleLecture].length ∧
    ([sampleLecture].map Lecture.toJson).map Lecture.ofJson = [sampleLecture].map some :=
  fetchLectures_wellformed_array_passthrough none
    (fun _ => .response 200 (.ok (.arr ([sampleLecture].map Lecture.toJson))))
    200 [sampleLecture] (by decide) (fun _ => rfl)

/-- C2: for every simulated response with a non-success HTTP status
(so in particular 400, 404, 500 and 503), `fetchLectures` fails with
the "listing unavailable" condition (`Error("Unable to load lectures")`),
whatever the body holds — well-formed, malformed or empty — and this is
the only failure produced on the HTTP-status path. -/
theorem fetchLectures_nonOk_listing_unavailable (envApiUrl : Option String)
    (net : Request → FetchOutcome) (status : Nat) (body : Except String Json)
    (hok : statusOk status = false)
    (hnet : ∀ r, net r = .response status body) :
    (fetchLectures envApiUrl net).2 = .error (.jsError "Unable to load lectures") := by
  simp [fetchLectures, hnet, hok]

theorem fetchLectures_nonOk_listing_unavailable_witness :
    (fetchLectures none (fun _ => .response 400 (.error "empty body"))).2
      = .error (.jsError "Unable to load lectures") ∧
    (fetchLectures none (fun _ => .response 404 (.error "malformed"))).2
      = .error (.jsError "Unable to load lectures") ∧
    (fetchLectures none (fun _ => .response 500 (.ok .null))).2
      = .error (.jsError "Unable to load lectures") ∧
    (fetchLectures none (fun _ => .response 503 (.ok (.str "oops")))).2
      = .error (.jsError "Unable to load lectures") :=
  ⟨ fetchLectures_nonOk_listing_unavailable none _ 400 (.error "empty body")
      (by decide) (fun _ => rfl)
  , fetchLectures_nonOk_listing_unavailable none _ 404 (.error "malformed")
      (by decide) (fun _ => rfl)
  , fetchLectures_nonOk_listing_unavailable none _ 500 (.ok .null)
      (by decide) (fun _ => rfl)
  , fetchLectures_nonOk_listing_unavailable none _ 503 (.ok (.str "oops"))
      (by decide) (fun _ => rfl) ⟩

/-- C3: for every non-empty slug and every simulated response with a
non-success HTTP status (so in particular 400, 404, 500 and 503),
`fetchLecture` fails with the "lecture not found" condition
(`Error("Lecture not found")`), whatever the body holds — a single,
undifferentiated signal for missing identifiers, malformed identifiers
and unrelated server failures alike. -/
theorem fetchLecture_nonOk_not_found (envApiUrl : Option String) (slug : String)
    (net : Request → FetchOutcome) (status : Nat) (body : Except String Json)
    (hslug : slug ≠ "")
    (hok : statusOk status = false)
    (hnet : ∀ r, net r = .response status body) :
    (fetchLecture envApiUrl slug net).2 = .error (.jsError "Lecture not found") := by
  simp [fetchLecture, hnet, hok]

theorem fetchLecture_nonOk_not_found_witness :
    (fetchLecture none "missing" (fun _ => .response 404 (.error "empty body"))).2
      = .error (.jsError "Lecture not found") ∧
    (fetchLecture none "missing" (fun _ => .response 400 (.ok .null))).2
      = .error (.jsError "Lecture not found") ∧
    (fetchLecture none "missing" (fun _ => .response 500 (.error "malformed"))).2
      = .error (.jsError "Lecture not found") ∧
    (fetchLecture none "missing" (fun _ => .response 503 (.ok (.num 3)))).2
      = .error (.jsError "Lecture not found") :=
  ⟨ fetchLecture_nonOk_not_found none "missing" _ 404 (.error "empty body")
      (by decide) (by decide) (fun _ => rfl)
  , fetchLecture_nonOk_not_found none "missing" _ 400 (.ok .null)
      (by decide) (by decide) (fun _ => rfl)
  , fetchLecture_nonOk_not_found none "missing" _ 500 (.error "malformed")
      (by decide) (by decide) (fun _ => rfl)
  , fetchLecture_nonOk_not_found none "missing" _ 503 (.ok (.num 3))
      (by decide) (by decide) (fun _ => rfl) ⟩

/-- C4: for every non-empty slug and every simulated successful (2xx)
response whose body is a single well-formed Lecture JSON object,
`fetchLecture` resolves with exactly that object, and decoding it
recovers a lecture whose fields all match the input lecture's fields. -/
theorem fetchLecture_wellformed_object_passthrough (envApiUrl : Option String)
    (slug : String) (net : Request → FetchOutcome) (status : Nat) (l : Lecture)
    (hslug : slug ≠ "")
    (hok : statusOk status = true)
    (hnet : ∀ r, net r = .response status (.ok l.toJson)) :
    (fetchLecture envApiUrl slug net).2 = .ok l.toJson ∧
    Lecture.ofJson l.toJson = some l := by
  refine ⟨?_, lecture_decode_encode l⟩
  simp [fetchLecture, hnet, hok]

theorem fetchLecture_wellformed_object_passthrough_witness :
    (fetchLecture none "a" (fun _ => .response 200 (.ok sampleLecture.toJson))).2
      = .ok sampleLecture.toJson ∧
    Lecture.ofJson sampleLecture.toJson = some sampleLecture :=
  fetchLecture_wellformed_object_passthrough none "a"
    (fun _ => .response 200 (.ok sampleLecture.toJson)) 200 sampleLecture
    (by decide) (by decide) (fun _ => rfl)

/-- C5: the single request issued by `fetchLecture slug` targets exactly
`{apiBaseUrl}/api/lectures/{slug}` with the slug inserted as a path
segment with no additional escaping (in particular, "intro-to-systems"
yields `{apiBaseUrl}/api/lectures/intro-to-systems`), and the single
request issued by `fetchLectures` targets exactly
`{apiBaseUrl}/api/lectures` with no query string or path suffix. -/
theorem request_urls_exact (envApiUrl : Option String) (slug : String)
    (net : Request → FetchOutcome) :
    (fetchLectures envApiUrl net).1.url = apiBaseUrl envApiUrl ++ "/api/lectures" ∧
    (fetchLecture envApiUrl slug net).1.url
      = apiBaseUrl envApiUrl ++ "/api/lectures/" ++ slug ∧
    (fetchLecture envApiUrl "intro-to-systems" net).1.url
      = apiBaseUrl envApiUrl ++ "/api/lectures/intro-to-systems" := by
  refine ⟨rfl, rfl, ?_⟩
  show apiBaseUrl envApiUrl ++ "/api/lectures/" ++ "intro-to-systems"
    = apiBaseUrl envApiUrl ++ "/api/lectures/intro-to-systems"
  rw [String.append_assoc]
  rfl

/-- C6: every request issued by either operation, for every input,
carries the `no-store` cache directive, the `fetch` setting that
disables response caching. -/
theorem requests_carry_no_store (envApiUrl : Option String) (slug : String)
    (net : Request → FetchOutcome) :
    (fetchLectures envApiUrl net).1.cache = CacheMode.noStore ∧
    (fetchLecture envApiUrl slug net).1.cache = CacheMode.noStore :=
  ⟨rfl, rfl⟩

/-- C7: the base address resolves from the environment override when
present and equals the fixed default `http://localhost:8000` when
absent; the one resolved value prefixes the request URL of every call
to both operations (the embedding passes the single module-level value
to every call, so it is never re-resolved or mutated). -/
theorem apiBaseUrl_single_resolution (envApiUrl : Option String) (slug : String)
    (net : Request → FetchOutcome) :
    apiBaseUrl none = "http://localhost:8000" ∧
    (∀ override, apiBaseUrl (some override) = override) ∧
    (fetchLectures envApiUrl net).1.url = apiBaseUrl envApiUrl ++ "/api/lectures" ∧
    (fetchLecture envApiUrl slug net).1.url
      = apiBaseUrl envApiUrl ++ "/api/lectures/" ++ slug :=
  ⟨rfl, fun _ => rfl, rfl, rfl⟩

/-- C8: failures that are not HTTP-status failures — a transport error
from the fetch mechanism, or a JSON-decode error on a success-status
body — propagate out of both operations unmodified, and neither kind is
ever the "listing unavailable"/"lecture not found" `Error` raised by
the module itself. -/
theorem transport_decode_failures_propagate (envApiUrl : Option String)
    (slug : String) (status : Nat) (e : String)
    (hok : statusOk status = true) :
    (fetchLectures envApiUrl (fun _ => .transportError e)).2 = .error (.transport e) ∧
    (fetchLecture envApiUrl slug (fun _ => .transportError e)).2 = .error (.transport e) ∧
    (fetchLectures envApiUrl (fun _ => .response status (.error e))).2
      = .error (.decode e) ∧
    (fetchLecture envApiUrl slug (fun _ => .response status (.error e))).2
      = .error (.decode e) ∧
    (∀ m, JsError.transport e ≠ .jsError m) ∧
    (∀ m, JsError.decode e ≠ .jsError m) := by
  refine ⟨rfl, rfl, ?_, ?_, ?_, ?_⟩
  · simp [fetchLectures, hok]
  · simp [fetchLecture, hok]
  · intro m; simp
  · intro m; simp

theorem transport_decode_failures_propagate_witness :
    (fetchLectures none (fun _ => .transportError "connection refused")).2
      = .error (.transport "connection refused") ∧
    (fetchLecture none "a" (fun _ => .transportError "connection refused")).2
      = .error (.transport "connection refused") ∧
    (fetchLectures none (fun _ => .response 200 (.error "connection refused"))).2
      = .error (.decode "connection refused") ∧
    (fetchLecture none "a" (fun _ => .response 200 (.error "connection refused"))).2
      = .error (.decode "connection refused") ∧
    (∀ m, JsError.transport "connection refused" ≠ .jsError m) ∧
    (∀ m, JsError.decode "connection refused" ≠ .jsError m) :=
  transport_decode_failures_propagate none "a" 200 "connection refused" (by decide)

/-- C9: `fetchLecture` validates nothing locally: for every slug,
including the empty string, the slug is interpolated verbatim into the
request URL (the empty slug yields the listing path with a trailing
slash) and the outcome is entirely the translation of the network
response — raising no slug-dependent local error. -/
theorem fetchLecture_no_local_validation (envApiUrl : Option String)
    (slug : String) (net : Request → FetchOutcome) :
    (fetchLecture envApiUrl slug net).1.url
      = apiBaseUrl envApiUrl ++ "/api/lectures/" ++ slug ∧
    (fetchLecture envApiUrl "" net).1.url = apiBaseUrl envApiUrl ++ "/api/lectures/" ∧
    (fetchLecture envApiUrl slug net).2
      = handleLectureOutcome (net (fetchLecture envApiUrl slug net).1) := by
  refine ⟨rfl, ?_, ?_⟩
  · show apiBaseUrl envApiUrl ++ "/api/lectures/" ++ "" = apiBaseUrl envApiUrl ++ "/api/lectures/"
    rw [String.append_empty]
  · show (fetchLecture envApiUrl slug net).2
      = handleLectureOutcome
          (net ⟨apiBaseUrl envApiUrl ++ "/api/lectures/" ++ slug, .noStore⟩)
    cases h : net ⟨apiBaseUrl envApiUrl ++ "/api/lectures/" ++ slug, .noStore⟩ <;>
      simp [fetchLecture, handleLectureOutcome, h]

/-- C10: on a success (2xx) response neither operation inspects the
decoded body at all: whatever JSON value the body decodes to — null, a
number, a non-array object for the listing, an array for the single
lecture, objects missing every Lecture field — the operation resolves
successfully and returns that value as-is. -/
theorem success_body_returned_unvalidated (envApiUrl : Option String)
    (slug : String) (status : Nat) (j : Json)
    (hok : statusOk status = true) :
    (fetchLectures envApiUrl (fun _ => .response status (.ok j))).2 = .ok j ∧
    (fetchLecture envApiUrl slug (fun _ => .response status (.ok j))).2 = .ok j := by
  constructor <;> simp [fetchLectures, fetchLecture, hok]

theorem success_body_returned_unvalidated_witness :
    (fetchLectures none (fun _ => .response 204 (.ok (.num 7)))).2 = .ok (.num 7) ∧
    (fetchLecture none "a" (fun _ => .response 204 (.ok (.num 7)))).2 = .ok (.num 7) :=
  success_body_returned_unvalidated none "a" 204 (.num 7) (by decide)

end Academix
